import Mathlib

/-!
Verification of the ATS-Optimizer heating core: a shallow embedding of
`src/app/thermal_model.py` and `src/app/optimization.py`.

Conventions of the embedding:
* Python floats are modelled as exact rationals (`ℚ`).  All constants of the
  source (273.15, 0.45, 0.15, 0.7, ...) are exactly representable, so the
  physics formulas carry over verbatim.
* Rational division in Lean is total with `x / 0 = 0`, whereas Python raises
  `ZeroDivisionError` on a zero denominator.  The one place where the source
  can divide by zero is the Carnot ratio inside `get_cop`; the faithful
  partial version is `get_cop?` (returning `none` exactly where Python
  raises), and `copCarnotDenominator` names the denominator itself.  The rest
  of the development uses the totalised `get_cop`, which agrees with
  `get_cop?` wherever the Python code returns at all.
* Python list indexing raises `IndexError` past the end; functions that index
  are embedded as `Option`-valued, returning `none` where Python would raise.
  Per-hour loops that index several parallel lists at the same position are
  written as simultaneous structural recursion on those lists, which agrees
  with the source whenever the loop completes without an `IndexError`.
* `datetime` timestamps and the templated explanation strings of
  `_create_detailed_schedule` are presentation-only (never consumed by any
  logic) and are omitted from `ScheduleEntry`.
-/

/-- `np.clip(a, lo, hi)` = `min(max(a, lo), hi)`. -/
def npClip (a lo hi : ℚ) : ℚ := min (max a lo) hi

/-- Python `min(xs)`: `none` on the empty list (Python raises `ValueError`). -/
def pyMin : List ℚ → Option ℚ
  | [] => none
  | x :: xs => some (xs.foldl min x)

/-- Python `max(xs)`: `none` on the empty list (Python raises `ValueError`). -/
def pyMax : List ℚ → Option ℚ
  | [] => none
  | x :: xs => some (xs.foldl max x)

/-- Python `round` on an exact rational value: round half to even.
(Binary floating-point representation error of the argument is not
modelled; the inputs we evaluate are exact decimals.) -/
def roundHalfEven (x : ℚ) : ℤ :=
  if x - ⌊x⌋ < 1/2 then ⌊x⌋
  else if (1:ℚ)/2 < x - ⌊x⌋ then ⌊x⌋ + 1
  else if ⌊x⌋ % 2 = 0 then ⌊x⌋ else ⌊x⌋ + 1

/-- Python `round(x, n)` for `n` decimal digits. -/
def pyRound (x : ℚ) (n : ℕ) : ℚ := (roundHalfEven (x * 10 ^ n) : ℚ) / 10 ^ n

/-- `BuildingParameters` (thermal_model.py): physical parameters of a building. -/
structure BuildingParameters where
  floor_area : ℚ
  volume : ℚ
  insulation_level : String
deriving DecidableEq

/-- `BuildingParameters.get_u_value`: thermal transmittance by insulation level;
`dict.get` falls back to 0.30 for any other string. -/
def BuildingParameters.get_u_value (b : BuildingParameters) : ℚ :=
  if b.insulation_level = "low" then 0.50
  else if b.insulation_level = "medium" then 0.30
  else if b.insulation_level = "high" then 0.17
  else 0.30

/-- `BuildingParameters.get_thermal_mass`: `100_000 * floor_area` (J/K). -/
def BuildingParameters.get_thermal_mass (b : BuildingParameters) : ℚ :=
  100000 * b.floor_area

/-- `BuildingParameters.get_envelope_area`: `4.0 * floor_area` (m²). -/
def BuildingParameters.get_envelope_area (b : BuildingParameters) : ℚ :=
  4.0 * b.floor_area

/-- `HeatPumpParameters` (thermal_model.py). -/
structure HeatPumpParameters where
  type : String
  rated_power : ℚ
  rated_cop : ℚ
deriving DecidableEq

/-- The denominator `t_hot_k - t_cold_k` of the Carnot ratio computed inside
`HeatPumpParameters.get_cop`.  When it is zero, Python raises
`ZeroDivisionError` before the clamp is ever reached. -/
def copCarnotDenominator (hp : HeatPumpParameters) (t_outdoor t_indoor : ℚ) : ℚ :=
  (t_indoor + 273.15) - ((if hp.type = "ASHP" then t_outdoor else 5.0) + 273.15)

/-- `HeatPumpParameters.get_cop` with Lean's total division (`x / 0 = 0`).
Everywhere the Python function returns, this agrees with it; at a zero
Carnot denominator Python raises instead (see `get_cop?`). -/
def HeatPumpParameters.get_cop (hp : HeatPumpParameters) (t_outdoor t_indoor : ℚ) : ℚ :=
  let t_hot_k := t_indoor + 273.15
  let t_cold_k := (if hp.type = "ASHP" then t_outdoor else 5.0) + 273.15
  let cop_carnot := t_hot_k / (t_hot_k - t_cold_k)
  let cop_real := cop_carnot * 0.45
  npClip cop_real 2.0 5.0

/-- Faithful partial version of `get_cop`: `none` exactly where Python raises
`ZeroDivisionError` (zero Carnot denominator). -/
def get_cop? (hp : HeatPumpParameters) (t_outdoor t_indoor : ℚ) : Option ℚ :=
  if copCarnotDenominator hp t_outdoor t_indoor = 0 then none
  else some (hp.get_cop t_outdoor t_indoor)

/-- `ThermalSimulator.__init__` precomputes `UA = U * envelope_area`. -/
def simUA (b : BuildingParameters) : ℚ := b.get_u_value * b.get_envelope_area

/-- `ThermalSimulator.__init__`: `window_area = 0.15 * floor_area`. -/
def windowArea (b : BuildingParameters) : ℚ := 0.15 * b.floor_area

/-- `ThermalSimulator.__init__`: `solar_gain_factor = 0.7`. -/
def solarGainFactor : ℚ := 0.7

/-- `ThermalSimulator.simulate_hour`: one explicit-Euler step of the RC model.
`dt` defaults to 3600 s at every call site in the repository. -/
def simulate_hour (b : BuildingParameters) (hp : HeatPumpParameters)
    (t_indoor_current t_outdoor : ℚ) (heat_pump_on : Bool)
    (heat_pump_power_fraction : ℚ) (solar_radiation : ℚ) (dt : ℚ) : ℚ :=
  let q_loss := simUA b * (t_indoor_current - t_outdoor)
  let q_solar := solar_radiation * windowArea b * solarGainFactor
  let q_heat_pump :=
    if heat_pump_on then
      hp.get_cop t_outdoor t_indoor_current
        * (hp.rated_power * heat_pump_power_fraction * 1000)
    else 0.0
  let q_net := q_heat_pump + q_solar - q_loss
  t_indoor_current + (q_net * dt) / b.get_thermal_mass

/-- Loop body chain of `ThermalSimulator.simulate_day`: the Python loop runs
`for hour in range(24)` and indexes the three input lists at `hour`, which is
the same as consuming the lists head-first; `none` models the `IndexError`
raised when a list is shorter than the iteration needs.  The power fraction
is the hard-coded `0.7` of the source. -/
def simDayGo (b : BuildingParameters) (hp : HeatPumpParameters) :
    ℕ → ℚ → List ℚ → List Bool → List ℚ → Option (List ℚ)
  | 0, _, _, _, _ => some []
  | n + 1, t, o :: os, s :: ss, r :: rs =>
      let t_new := simulate_hour b hp t o s 0.7 r 3600.0
      do
        let rest ← simDayGo b hp n t_new os ss rs
        pure (t_new :: rest)
  | _ + 1, _, _, _, _ => none

/-- `ThermalSimulator.simulate_day`: always 24 iterations, whatever the input
lengths; returns the 24 temperatures after each hour (initial value dropped). -/
def simulate_day (b : BuildingParameters) (hp : HeatPumpParameters)
    (t_indoor_initial : ℚ) (t_outdoor_hourly : List ℚ)
    (heat_pump_schedule : List Bool) (solar_radiation_hourly : List ℚ) :
    Option (List ℚ) :=
  simDayGo b hp 24 t_indoor_initial t_outdoor_hourly heat_pump_schedule
    solar_radiation_hourly

/-- `HeatPumpMode` (models.py).  The optimizer manipulates the corresponding
strings "BOOST" / "NORMAL" / "ECO" / "OFF"; since it only ever produces these
four, the closed enumeration is an equivalent embedding. -/
inductive HeatPumpMode where
  | BOOST
  | NORMAL
  | ECO
  | OFF
deriving DecidableEq

/-- The `power_fractions` dict `{"BOOST": 1.0, "NORMAL": 0.7, "ECO": 0.3,
"OFF": 0.0}` used by both the simulator and the optimizer. -/
def powerFraction : HeatPumpMode → ℚ
  | HeatPumpMode.BOOST => 1.0
  | HeatPumpMode.NORMAL => 0.7
  | HeatPumpMode.ECO => 0.3
  | HeatPumpMode.OFF => 0.0

/-- `ThermalSimulator.estimate_power_consumption`: kWh for one hour; a pure
mode lookup (the temperature arguments are unused in the source too). -/
def estimate_power_consumption (hp : HeatPumpParameters)
    (_t_outdoor _t_indoor : ℚ) (mode : HeatPumpMode) : ℚ :=
  let fraction := powerFraction mode
  if mode = HeatPumpMode.OFF then 0.0
  else hp.rated_power * fraction

/-- `calculate_comfort_score` (thermal_model.py): comfort score and number of
hours outside the comfort band.  `np.mean` of the empty list is guarded by the
source's `if violations else 0`. -/
def calculate_comfort_score (indoor_temps : List ℚ)
    (comfort_min comfort_max : ℚ) : ℚ × ℕ :=
  let hours_too_cold := indoor_temps.countP (fun t => decide (t < comfort_min))
  let hours_too_hot := indoor_temps.countP (fun t => decide (comfort_max < t))
  let hours_outside := hours_too_cold + hours_too_hot
  let violations := indoor_temps.map (fun t =>
    if t < comfort_min then comfort_min - t
    else if comfort_max < t then t - comfort_max
    else 0.0)
  let severe_violations := violations.countP (fun v => decide (2.0 < v))
  let avg_violation :=
    if violations = [] then 0 else violations.sum / (violations.length : ℚ)
  let score := 100.0 - (hours_outside : ℚ) * 3 - (severe_violations : ℚ) * 5
    - avg_violation * 10
  (max 0.0 (min 100.0 score), hours_outside)

/-- `OptimizationInput` (optimization.py).  `start_time` is a presentation-only
timestamp (it only feeds the omitted `ScheduleEntry.timestamp`) and is left
out. -/
structure OptimizationInput where
  building : BuildingParameters
  heat_pump : HeatPumpParameters
  current_indoor_temp : ℚ
  outdoor_temps : List ℚ
  electricity_prices : List ℚ
  solar_radiation : List ℚ
  comfort_min_temp : ℚ
  comfort_max_temp : ℚ
deriving DecidableEq

/-- Price category strings "cheap" / "moderate" / "expensive" produced while
classifying normalized prices in `_greedy_optimize`. -/
inductive PriceCategory where
  | cheap
  | moderate
  | expensive
deriving DecidableEq

/-- The price classification of `_greedy_optimize`:
`< 30` cheap, `< 70` moderate, otherwise expensive. -/
def classifyPrice (price : ℚ) : PriceCategory :=
  if price < 30 then PriceCategory.cheap
  else if price < 70 then PriceCategory.moderate
  else PriceCategory.expensive

/-- Price normalization of `_greedy_optimize` ("Phase 0"): rescale to the 0-100
scale, or `[50.0] * n_hours` when the price range is zero.  Note the source
quirk kept here: the uniform branch has the length of the *outdoor* forecast
(`n_hours`), the other branch the length of the price list.  `none` models the
`ValueError` Python's `min` / `max` raise on an empty price list. -/
def normalizePrices (electricity_prices : List ℚ) (n_hours : ℕ) :
    Option (List ℚ) := do
  let price_min ← pyMin electricity_prices
  let price_max ← pyMax electricity_prices
  let price_range := price_max - price_min
  if 0 < price_range then
    pure (electricity_prices.map (fun p => (p - price_min) / price_range * 100))
  else
    pure (List.replicate n_hours 50.0)

/-- Phase 1 of `_greedy_optimize`: start from the initial all-NORMAL schedule
and set every cheap hour to BOOST.  The Python loop walks the category list and
writes `schedule[hour]`; consuming both lists in parallel is the same whenever
the categories are not longer than the schedule (otherwise Python raises
`IndexError`, and this function stops instead). -/
def applyBoostCheap : List HeatPumpMode → List PriceCategory → List HeatPumpMode
  | s :: ss, c :: cs =>
      (if c = PriceCategory.cheap then HeatPumpMode.BOOST else s)
        :: applyBoostCheap ss cs
  | s, [] => s
  | [], _ :: _ => []

/-- The expensive-hour mode choice at the top of the Phase 2 loop body of
`_greedy_optimize`; on non-expensive hours the Phase 1 mode is kept. -/
def selectMode (comfort_min_temp : ℚ) (category : PriceCategory)
    (t_current : ℚ) (m : HeatPumpMode) : HeatPumpMode :=
  if category = PriceCategory.expensive then
    if comfort_min_temp + 2.0 < t_current then HeatPumpMode.ECO
    else if comfort_min_temp + 0.5 < t_current then HeatPumpMode.NORMAL
    else HeatPumpMode.BOOST
  else m

/-- One iteration of the Phase 2 loop of `_greedy_optimize`: choose the mode,
simulate the hour, and apply the safety correction (if the simulated
temperature undershoots `comfort_min_temp`, discard it, force BOOST and
re-simulate the same hour at full power). -/
def greedyHourStep (b : BuildingParameters) (hp : HeatPumpParameters)
    (comfort_min_temp : ℚ) (category : PriceCategory) (m : HeatPumpMode)
    (t_current t_outdoor solar_radiation : ℚ) : HeatPumpMode × ℚ :=
  let m1 := selectMode comfort_min_temp category t_current m
  let heat_pump_on := if m1 = HeatPumpMode.OFF then false else true
  let t_new := simulate_hour b hp t_current t_outdoor heat_pump_on
    (powerFraction m1) solar_radiation 3600.0
  if t_new < comfort_min_temp then
    (HeatPumpMode.BOOST,
      simulate_hour b hp t_current t_outdoor true 1.0 solar_radiation 3600.0)
  else (m1, t_new)

/-- Phase 2 of `_greedy_optimize`: the sequential per-hour pass, carrying the
running indoor temperature.  The Python loop indexes four parallel lists at
`hour`; simultaneous structural recursion is the same whenever they share the
loop's length (on a mismatch Python raises `IndexError`, this recursion stops
at the shortest list).  Returns the final modes and the appended (possibly
safety-corrected) post-hour temperatures. -/
def greedyPhase2 (b : BuildingParameters) (hp : HeatPumpParameters)
    (comfort_min_temp : ℚ) :
    List HeatPumpMode → List PriceCategory → List ℚ → List ℚ → ℚ →
    List HeatPumpMode × List ℚ
  | m :: ms, c :: cs, o :: os, r :: rs, t =>
      let step := greedyHourStep b hp comfort_min_temp c m t o r
      let rest := greedyPhase2 b hp comfort_min_temp ms cs os rs step.2
      (step.1 :: rest.1, step.2 :: rest.2)
  | _, _, _, _, _ => ([], [])

/-- `HeatPumpOptimizer._greedy_optimize`: produces the mode schedule and the
temperature list `current_indoor_temp :: post-hour temperatures`. -/
def greedy_optimize (inp : OptimizationInput) :
    Option (List HeatPumpMode × List ℚ) := do
  let n_hours := inp.outdoor_temps.length
  let normalized_prices ← normalizePrices inp.electricity_prices n_hours
  let price_categories := normalized_prices.map classifyPrice
  let schedule0 := applyBoostCheap (List.replicate n_hours HeatPumpMode.NORMAL)
    price_categories
  let result := greedyPhase2 inp.building inp.heat_pump inp.comfort_min_temp
    schedule0 price_categories inp.outdoor_temps inp.solar_radiation
    inp.current_indoor_temp
  pure (result.1, inp.current_indoor_temp :: result.2)

/-- `HeatPumpOptimizer._calculate_cost`: sum over the schedule of
`estimate_power_consumption(outdoor[h], indoor[h], mode[h]) * price[h] / 1000`.
The loop indexes `prices`, `outdoor_temps` and `indoor_temps` at each hour of
the schedule; `none` models the `IndexError` on a too-short list. -/
def calculate_cost (hp : HeatPumpParameters) :
    List HeatPumpMode → List ℚ → List ℚ → List ℚ → Option ℚ
  | [], _, _, _ => some 0
  | m :: ms, p :: ps, o :: os, t :: ts => do
      let rest ← calculate_cost hp ms ps os ts
      pure (estimate_power_consumption hp o t m * (p / 1000.0) + rest)
  | _ :: _, _, _, _ => none

/-- `ScheduleEntry`: one element of the detailed schedule built by
`_create_detailed_schedule` (timestamp and explanation string omitted, see the
header comment). -/
structure ScheduleEntry where
  hour : ℕ
  mode : HeatPumpMode
  expected_indoor_temp : ℚ
  outdoor_temp : ℚ
  electricity_price : ℚ
deriving DecidableEq

/-- `HeatPumpOptimizer._create_detailed_schedule`: walks the modes with the
hour counter `h`, reading `indoor_temps[hour]` (the *entering* temperature,
since the temperature list passed in starts with the initial value),
`outdoor_temps[hour]` and `prices[hour]`, rounding as the source does. -/
def createDetailedGo (h : ℕ) :
    List HeatPumpMode → List ℚ → List ℚ → List ℚ → List ScheduleEntry
  | m :: ms, t :: ts, o :: os, p :: ps =>
      ScheduleEntry.mk h m (pyRound t 1) (pyRound o 1) (pyRound p 2)
        :: createDetailedGo (h + 1) ms ts os ps
  | _, _, _, _ => []

/-- `OptimizationResult`: the dict returned by `HeatPumpOptimizer.optimize`. -/
structure OptimizationResult where
  schedule : List ScheduleEntry
  total_cost : ℚ
  baseline_cost : ℚ
  savings : ℚ
  indoor_temps : List ℚ
deriving DecidableEq

/-- `HeatPumpOptimizer.optimize`: greedy pass, cost of the resulting schedule
over `indoor_temps[:-1]`, baseline cost of the always-on NORMAL day (via
`simulate_day` with its hard-coded 24 hours and `[True] * 24`), detailed
schedule, and the result record with `savings = baseline_cost - total_cost`
and the trajectory `indoor_temps[:-1]`.  It performs no input validation. -/
def optimize (inp : OptimizationInput) : Option OptimizationResult := do
  let greedy ← greedy_optimize inp
  let schedule := greedy.1
  let indoor_temps := greedy.2
  let total_cost ← calculate_cost inp.heat_pump schedule
    inp.electricity_prices inp.outdoor_temps indoor_temps.dropLast
  let baseline_temps ← simulate_day inp.building inp.heat_pump
    inp.current_indoor_temp inp.outdoor_temps (List.replicate 24 true)
    inp.solar_radiation
  let baseline_cost ← calculate_cost inp.heat_pump
    (List.replicate inp.outdoor_temps.length HeatPumpMode.NORMAL)
    inp.electricity_prices inp.outdoor_temps baseline_temps
  let detailed_schedule := createDetailedGo 0 schedule indoor_temps
    inp.outdoor_temps inp.electricity_prices
  pure (OptimizationResult.mk detailed_schedule total_cost baseline_cost
    (baseline_cost - total_cost) indoor_temps.dropLast)

/-- Sequential iteration of `simulate_hour` with the NORMAL (0.7) power
fraction, as the specification describes `simulate_day`: defined by structural
recursion on the three hourly lists, for comparison with the source embedding
`simulate_day` (which always runs exactly 24 iterations). -/
def simDayChain (b : BuildingParameters) (hp : HeatPumpParameters) :
    ℚ → List ℚ → List Bool → List ℚ → List ℚ
  | t, o :: os, s :: ss, r :: rs =>
      let t_new := simulate_hour b hp t o s 0.7 r 3600.0
      t_new :: simDayChain b hp t_new os ss rs
  | _, _, _, _ => []

/-- Per-hour comfort violation as the specification words it: the distance to
the nearer violated bound, or 0 inside the band. -/
def comfortViolation (comfort_min comfort_max t : ℚ) : ℚ :=
  if t < comfort_min then comfort_min - t
  else if comfort_max < t then t - comfort_max
  else 0.0

/-- `hours_outside` as the specification words it:
`count(t < comfort_min) + count(t > comfort_max)`. -/
def hoursOutside (comfort_min comfort_max : ℚ) (ts : List ℚ) : ℕ :=
  ts.countP (fun t => decide (t < comfort_min)) +
    ts.countP (fun t => decide (comfort_max < t))

/-- The comfort score as the specification words it:
`clamp(100 - 3*hours_outside - 5*count(violation > 2) - 10*mean(violation), 0, 100)`
(with mean 0 for an empty trajectory), to be compared with the source
embedding `calculate_comfort_score`. -/
def comfortScoreSpec (ts : List ℚ) (comfort_min comfort_max : ℚ) : ℚ :=
  max 0.0 (min 100.0
    (100.0 - (hoursOutside comfort_min comfort_max ts : ℚ) * 3
      - ((ts.map (comfortViolation comfort_min comfort_max)).countP
          (fun v => decide (2.0 < v)) : ℚ) * 5
      - (if ts = [] then 0
          else (ts.map (comfortViolation comfort_min comfort_max)).sum /
            (ts.length : ℚ)) * 10))

/-! ### Concrete instances used by the claim theorems -/

/-- The worked-example building of the specification: 100 m², 250 m³, medium
insulation (U = 0.30, envelope 400 m², UA = 120 W/K, C = 10⁷ J/K). -/
def bEx : BuildingParameters := ⟨100, 250, "medium"⟩

/-- The worked-example air-source heat pump: 6 kW, rated COP 3.5. -/
def hpASHPEx : HeatPumpParameters := ⟨"ASHP", 6, 3.5⟩

/-- A ground-source heat pump with the worked example's ratings. -/
def hpGSHPEx : HeatPumpParameters := ⟨"GSHP", 6, 3.5⟩

/-- An air-source pump with zero rated power (delivers no heat). -/
def hpZeroA : HeatPumpParameters := ⟨"ASHP", 0, 3.5⟩

/-- A ground-source pump with zero rated power: a physical parameter the
specification requires to be rejected as non-positive. -/
def hpZeroG : HeatPumpParameters := ⟨"GSHP", 0, 3.5⟩

/-- A ground-source pump sized so that, for `bEx` at 788/63 °C outdoor, one
BOOST hour heats 21 °C to exactly 22 °C and ECO holds 22 °C exactly. -/
def hpC8 : HeatPumpParameters := ⟨"GSHP", 1196/1575, 3.5⟩

/-- A ground-source pump sized so that, for `bEx` at 0 °C outdoor, NORMAL
operation holds 21 °C exactly. -/
def hpC10 : HeatPumpParameters := ⟨"GSHP", 18/25, 3.5⟩

/-- An invalid optimization input (rated power 0, non-positive) with all three
forecast arrays of length 24. -/
def c2Inp : OptimizationInput :=
  ⟨bEx, hpZeroG, 21, List.replicate 24 21, List.replicate 24 10,
    List.replicate 24 0, 18, 25⟩

/-- A well-formed 24-hour input whose hour 0 is the cheap hour (BOOST, heating
21 °C to 22 °C) and whose remaining hours are expensive (ECO, holding 22 °C). -/
def c8CexInp : OptimizationInput :=
  ⟨bEx, hpC8, 21, List.replicate 24 (788/63), 20 :: List.replicate 23 100,
    List.replicate 24 0, 15, 25⟩

/-- A well-formed 24-hour input (uniform prices, NORMAL holds 21 °C exactly). -/
def c8WitInp : OptimizationInput :=
  ⟨bEx, hpC10, 21, List.replicate 24 0, List.replicate 24 10,
    List.replicate 24 0, 18, 25⟩

/-- A one-hour input on which the greedy pass yields NORMAL and a constant
21 °C temperature. -/
def c10WitInp : OptimizationInput := ⟨bEx, hpC10, 21, [0], [10], [0], 18, 25⟩

/-! ### Evaluation helpers: decidable atoms and derived coefficients -/

theorem str_gshp_ne_ashp : (("GSHP" : String) = "ASHP") = False := eq_false (by decide)

theorem str_medium_ne_low : (("medium" : String) = "low") = False := eq_false (by decide)

theorem mode_boost_ne_off : (HeatPumpMode.BOOST = HeatPumpMode.OFF) = False := eq_false (by decide)

theorem mode_normal_ne_off : (HeatPumpMode.NORMAL = HeatPumpMode.OFF) = False := eq_false (by decide)

theorem mode_eco_ne_off : (HeatPumpMode.ECO = HeatPumpMode.OFF) = False := eq_false (by decide)

theorem cat_cheap_ne_expensive : (PriceCategory.cheap = PriceCategory.expensive) = False := eq_false (by decide)

theorem cat_moderate_ne_expensive : (PriceCategory.moderate = PriceCategory.expensive) = False := eq_false (by decide)

theorem selectMode_not_expensive (cmin t : ℚ) (m : HeatPumpMode) (c : PriceCategory)
    (h : c ≠ PriceCategory.expensive) : selectMode cmin c t m = m := by
  unfold selectMode
  rw [if_neg h]

theorem selectMode_expensive (cmin t : ℚ) (m : HeatPumpMode) :
    selectMode cmin PriceCategory.expensive t m =
      if cmin + 2.0 < t then HeatPumpMode.ECO
      else if cmin + 0.5 < t then HeatPumpMode.NORMAL
      else HeatPumpMode.BOOST := by
  unfold selectMode
  rw [if_pos rfl]

theorem bEx_u_value : bEx.get_u_value = 3 / 10 := by
  unfold BuildingParameters.get_u_value bEx
  rw [if_neg (by decide), if_pos (by decide)]
  norm_num

theorem bEx_thermal_mass : bEx.get_thermal_mass = 10000000 := by
  unfold BuildingParameters.get_thermal_mass bEx
  norm_num

theorem simUA_bEx : simUA bEx = 120 := by
  unfold simUA BuildingParameters.get_envelope_area
  rw [bEx_u_value]
  norm_num [bEx]

theorem windowArea_bEx : windowArea bEx = 15 := by
  unfold windowArea bEx
  norm_num

/-! ### Structural lemmas about the embedded functions -/

theorem foldl_min_replicate : ∀ (n : ℕ) (x a : ℚ),
    (List.replicate n a).foldl min x = if n = 0 then x else min x a
  | 0, x, a => by simp
  | n + 1, x, a => by
      rw [List.replicate_succ, List.foldl_cons, foldl_min_replicate n (min x a) a]
      cases n with
      | zero => simp
      | succ k => simp [min_assoc]

theorem foldl_max_replicate : ∀ (n : ℕ) (x a : ℚ),
    (List.replicate n a).foldl max x = if n = 0 then x else max x a
  | 0, x, a => by simp
  | n + 1, x, a => by
      rw [List.replicate_succ, List.foldl_cons, foldl_max_replicate n (max x a) a]
      cases n with
      | zero => simp
      | succ k => simp [max_assoc]

theorem pyMin_cons (x : ℚ) (xs : List ℚ) : pyMin (x :: xs) = some (xs.foldl min x) := rfl

theorem pyMax_cons (x : ℚ) (xs : List ℚ) : pyMax (x :: xs) = some (xs.foldl max x) := rfl

theorem normalizePrices_cons_some (p : ℚ) (ps : List ℚ) (n : ℕ) :
    ∃ l, normalizePrices (p :: ps) n = some l ∧
      (l.length = (p :: ps).length ∨ l.length = n) := by
  unfold normalizePrices
  rw [pyMin_cons, pyMax_cons]
  simp only [Option.pure_def, Option.bind_eq_bind, Option.some_bind]
  by_cases h : 0 < ps.foldl max p - ps.foldl min p
  · exact ⟨_, by rw [if_pos h], Or.inl (by simp)⟩
  · exact ⟨_, by rw [if_neg h], Or.inr (by simp)⟩

theorem applyBoostCheap_eq_map : ∀ (cats : List PriceCategory) (n : ℕ) (s : HeatPumpMode),
    cats.length = n →
    applyBoostCheap (List.replicate n s) cats =
      cats.map (fun c => if c = PriceCategory.cheap then HeatPumpMode.BOOST else s)
  | [], n, s, h => by
      subst h
      rfl
  | c :: cs, n, s, h => by
      subst h
      rw [List.length_cons, List.replicate_succ]
      show (if c = PriceCategory.cheap then HeatPumpMode.BOOST else s)
          :: applyBoostCheap (List.replicate cs.length s) cs = _
      rw [applyBoostCheap_eq_map cs cs.length s rfl]
      rfl

theorem greedyPhase2_nil (b : BuildingParameters) (hp : HeatPumpParameters)
    (cmin : ℚ) (cs : List PriceCategory) (os rs : List ℚ) (t : ℚ) :
    greedyPhase2 b hp cmin [] cs os rs t = ([], []) := by
  cases cs <;> cases os <;> cases rs <;> rfl

theorem greedyPhase2_cons (b : BuildingParameters) (hp : HeatPumpParameters)
    (cmin : ℚ) (m : HeatPumpMode) (ms : List HeatPumpMode) (c : PriceCategory)
    (cs : List PriceCategory) (o : ℚ) (os : List ℚ) (r : ℚ) (rs : List ℚ) (t : ℚ) :
    greedyPhase2 b hp cmin (m :: ms) (c :: cs) (o :: os) (r :: rs) t =
      ((greedyHourStep b hp cmin c m t o r).1
          :: (greedyPhase2 b hp cmin ms cs os rs (greedyHourStep b hp cmin c m t o r).2).1,
        (greedyHourStep b hp cmin c m t o r).2
          :: (greedyPhase2 b hp cmin ms cs os rs (greedyHourStep b hp cmin c m t o r).2).2) := rfl

theorem greedyPhase2_length (b : BuildingParameters) (hp : HeatPumpParameters) (cmin : ℚ) :
    ∀ (ms : List HeatPumpMode) (cs : List PriceCategory) (os rs : List ℚ) (t : ℚ),
      cs.length = ms.length → os.length = ms.length → rs.length = ms.length →
      (greedyPhase2 b hp cmin ms cs os rs t).1.length = ms.length ∧
        (greedyPhase2 b hp cmin ms cs os rs t).2.length = ms.length
  | [], cs, os, rs, t, h1, h2, h3 => by
      rw [greedyPhase2_nil]
      simp
  | m :: ms, cs, os, rs, t, h1, h2, h3 => by
      match cs, os, rs, h1, h2, h3 with
      | c :: cs, o :: os, r :: rs, h1, h2, h3 =>
        rw [greedyPhase2_cons]
        have ih := greedyPhase2_length b hp cmin ms cs os rs
          (greedyHourStep b hp cmin c m t o r).2
          (by simpa using h1) (by simpa using h2) (by simpa using h3)
        simp [ih.1, ih.2]

theorem simDayGo_succ_cons (b : BuildingParameters) (hp : HeatPumpParameters)
    (n : ℕ) (t o : ℚ) (os : List ℚ) (s : Bool) (ss : List Bool) (r : ℚ) (rs : List ℚ) :
    simDayGo b hp (n + 1) t (o :: os) (s :: ss) (r :: rs) =
      Option.bind
        (simDayGo b hp n (simulate_hour b hp t o s 0.7 r 3600.0) os ss rs)
        (fun rest => some (simulate_hour b hp t o s 0.7 r 3600.0 :: rest)) := rfl

theorem simDayGo_some (b : BuildingParameters) (hp : HeatPumpParameters) :
    ∀ (n : ℕ) (t : ℚ) (os : List ℚ) (ss : List Bool) (rs : List ℚ),
      n ≤ os.length → n ≤ ss.length → n ≤ rs.length →
      ∃ l, simDayGo b hp n t os ss rs = some l ∧ l.length = n
  | 0, t, os, ss, rs, _, _, _ => ⟨[], rfl, rfl⟩
  | n + 1, t, os, ss, rs, h1, h2, h3 => by
      match os, ss, rs, h1, h2, h3 with
      | o :: os, s :: ss, r :: rs, h1, h2, h3 =>
        obtain ⟨l, hl, hlen⟩ := simDayGo_some b hp n
          (simulate_hour b hp t o s 0.7 r 3600.0) os ss rs
          (by simpa using h1) (by simpa using h2) (by simpa using h3)
        exact ⟨_, by rw [simDayGo_succ_cons, hl]; rfl, by simp [hlen]⟩

theorem calculate_cost_cons (hp : HeatPumpParameters) (m : HeatPumpMode)
    (ms : List HeatPumpMode) (p : ℚ) (ps : List ℚ) (o : ℚ) (os : List ℚ)
    (t : ℚ) (ts : List ℚ) :
    calculate_cost hp (m :: ms) (p :: ps) (o :: os) (t :: ts) =
      Option.bind (calculate_cost hp ms ps os ts)
        (fun rest => some (estimate_power_consumption hp o t m * (p / 1000.0) + rest)) := rfl

theorem calculate_cost_some (hp : HeatPumpParameters) :
    ∀ (ms : List HeatPumpMode) (ps os ts : List ℚ),
      ms.length ≤ ps.length → ms.length ≤ os.length → ms.length ≤ ts.length →
      ∃ c, calculate_cost hp ms ps os ts = some c
  | [], ps, os, ts, _, _, _ => ⟨0, rfl⟩
  | m :: ms, ps, os, ts, h1, h2, h3 => by
      match ps, os, ts, h1, h2, h3 with
      | p :: ps, o :: os, t :: ts, h1, h2, h3 =>
        obtain ⟨c, hc⟩ := calculate_cost_some hp ms ps os ts
          (by simpa using h1) (by simpa using h2) (by simpa using h3)
        exact ⟨_, by rw [calculate_cost_cons, hc]; rfl⟩

theorem estimate_power_consumption_zero (hp : HeatPumpParameters)
    (hr : hp.rated_power = 0) (o t : ℚ) (m : HeatPumpMode) :
    estimate_power_consumption hp o t m = 0 := by
  unfold estimate_power_consumption
  rw [hr]
  split <;> norm_num

theorem calculate_cost_zero (hp : HeatPumpParameters) (hr : hp.rated_power = 0) :
    ∀ (ms : List HeatPumpMode) (ps os ts : List ℚ),
      ms.length ≤ ps.length → ms.length ≤ os.length → ms.length ≤ ts.length →
      calculate_cost hp ms ps os ts = some 0
  | [], ps, os, ts, _, _, _ => rfl
  | m :: ms, ps, os, ts, h1, h2, h3 => by
      match ps, os, ts, h1, h2, h3 with
      | p :: ps, o :: os, t :: ts, h1, h2, h3 =>
        rw [calculate_cost_cons,
          calculate_cost_zero hp hr ms ps os ts
            (by simpa using h1) (by simpa using h2) (by simpa using h3)]
        simp [estimate_power_consumption_zero hp hr]

theorem createDetailedGo_map_expected :
    ∀ (ms : List HeatPumpMode) (ts os ps : List ℚ) (k : ℕ),
      ms.length ≤ ts.length → ms.length ≤ os.length → ms.length ≤ ps.length →
      (createDetailedGo k ms ts os ps).map ScheduleEntry.expected_indoor_temp =
        (ts.take ms.length).map (fun t => pyRound t 1)
  | [], ts, os, ps, k, _, _, _ => by
      cases ts <;> cases os <;> cases ps <;> rfl
  | m :: ms, ts, os, ps, k, h1, h2, h3 => by
      match ts, os, ps, h1, h2, h3 with
      | t :: ts, o :: os, p :: ps, h1, h2, h3 =>
        show ScheduleEntry.expected_indoor_temp
              (ScheduleEntry.mk k m (pyRound t 1) (pyRound o 1) (pyRound p 2))
            :: (createDetailedGo (k + 1) ms ts os ps).map ScheduleEntry.expected_indoor_temp = _
        rw [createDetailedGo_map_expected ms ts os ps (k + 1)
          (by simpa using h1) (by simpa using h2) (by simpa using h3)]
        simp [List.take_cons]

theorem dropLast_eq_take_of_length :
    ∀ (l : List ℚ) (n : ℕ), l.length = n + 1 → l.dropLast = l.take n
  | [], n, h => by simp at h
  | [x], n, h => by
      have : n = 0 := by simpa using h.symm
      subst this
      rfl
  | x :: y :: ys, n, h => by
      match n, h with
      | m + 1, h =>
        show x :: (y :: ys).dropLast = x :: (y :: ys).take m
        rw [dropLast_eq_take_of_length (y :: ys) m (by simpa using h)]

theorem greedy_optimize_eq (inp : OptimizationInput) (l : List ℚ)
    (h : normalizePrices inp.electricity_prices inp.outdoor_temps.length = some l) :
    greedy_optimize inp = some
      ((greedyPhase2 inp.building inp.heat_pump inp.comfort_min_temp
          (applyBoostCheap
            (List.replicate inp.outdoor_temps.length HeatPumpMode.NORMAL)
            (l.map classifyPrice))
          (l.map classifyPrice) inp.outdoor_temps inp.solar_radiation
          inp.current_indoor_temp).1,
        inp.current_indoor_temp ::
          (greedyPhase2 inp.building inp.heat_pump inp.comfort_min_temp
            (applyBoostCheap
              (List.replicate inp.outdoor_temps.length HeatPumpMode.NORMAL)
              (l.map classifyPrice))
            (l.map classifyPrice) inp.outdoor_temps inp.solar_radiation
            inp.current_indoor_temp).2) := by
  unfold greedy_optimize
  simp only [Option.pure_def, Option.bind_eq_bind]
  rw [h]
  simp only [Option.some_bind]

theorem optimize_structure (inp : OptimizationInput)
    (h1 : inp.outdoor_temps.length = 24)
    (h2 : inp.electricity_prices.length = 24)
    (h3 : inp.solar_radiation.length = 24) :
    ∃ (r : OptimizationResult) (sched : List HeatPumpMode) (temps : List ℚ),
      greedy_optimize inp = some (sched, temps) ∧
      optimize inp = some r ∧
      sched.length = 24 ∧ temps.length = 25 ∧
      temps.head? = some inp.current_indoor_temp ∧
      r.indoor_temps = temps.dropLast ∧
      r.schedule.map ScheduleEntry.expected_indoor_temp =
        temps.dropLast.map (fun t => pyRound t 1) ∧
      calculate_cost inp.heat_pump sched inp.electricity_prices
        inp.outdoor_temps temps.dropLast = some r.total_cost := by
  obtain ⟨p, ps, hps⟩ : ∃ p ps, inp.electricity_prices = p :: ps := by
    cases hp : inp.electricity_prices with
    | nil => rw [hp] at h2; simp at h2
    | cons a as => exact ⟨a, as, rfl⟩
  obtain ⟨l, hnorm, hlen⟩ := normalizePrices_cons_some p ps inp.outdoor_temps.length
  rw [← hps] at hnorm
  have hllen : l.length = 24 := by
    rcases hlen with h | h
    · rw [h, ← hps]
      exact h2
    · exact h.trans h1
  have hcatslen : (l.map classifyPrice).length = 24 := by simp [hllen]
  have hsched0len :
      (applyBoostCheap (List.replicate inp.outdoor_temps.length HeatPumpMode.NORMAL)
        (l.map classifyPrice)).length = 24 := by
    rw [applyBoostCheap_eq_map (l.map classifyPrice) inp.outdoor_temps.length
      HeatPumpMode.NORMAL (hcatslen.trans h1.symm)]
    simp [hllen]
  have hph := greedyPhase2_length inp.building inp.heat_pump inp.comfort_min_temp
    (applyBoostCheap (List.replicate inp.outdoor_temps.length HeatPumpMode.NORMAL)
      (l.map classifyPrice))
    (l.map classifyPrice) inp.outdoor_temps inp.solar_radiation
    inp.current_indoor_temp
    (hcatslen.trans hsched0len.symm) (h1.trans hsched0len.symm)
    (h3.trans hsched0len.symm)
  have hg := greedy_optimize_eq inp l hnorm
  set sched := (greedyPhase2 inp.building inp.heat_pump inp.comfort_min_temp
    (applyBoostCheap (List.replicate inp.outdoor_temps.length HeatPumpMode.NORMAL)
      (l.map classifyPrice))
    (l.map classifyPrice) inp.outdoor_temps inp.solar_radiation
    inp.current_indoor_temp).1 with hsched
  set ptemps := (greedyPhase2 inp.building inp.heat_pump inp.comfort_min_temp
    (applyBoostCheap (List.replicate inp.outdoor_temps.length HeatPumpMode.NORMAL)
      (l.map classifyPrice))
    (l.map classifyPrice) inp.outdoor_temps inp.solar_radiation
    inp.current_indoor_temp).2 with hptemps
  have hschedlen : sched.length = 24 := hsched0len ▸ hph.1
  have hptempslen : ptemps.length = 24 := hsched0len ▸ hph.2
  have htempslen : (inp.current_indoor_temp :: ptemps).length = 25 := by
    simp [hptempslen]
  have hdrop : (inp.current_indoor_temp :: ptemps).dropLast =
      (inp.current_indoor_temp :: ptemps).take 24 :=
    dropLast_eq_take_of_length _ 24 htempslen
  have hdroplen : (inp.current_indoor_temp :: ptemps).dropLast.length = 24 := by
    rw [hdrop]
    simp [hptempslen]
  obtain ⟨c1, hc1⟩ := calculate_cost_some inp.heat_pump sched inp.electricity_prices
    inp.outdoor_temps (inp.current_indoor_temp :: ptemps).dropLast
    (le_of_eq (hschedlen.trans h2.symm)) (le_of_eq (hschedlen.trans h1.symm))
    (le_of_eq (hschedlen.trans hdroplen.symm))
  obtain ⟨bl, hbl, hbllen⟩ := simDayGo_some inp.building inp.heat_pump 24
    inp.current_indoor_temp inp.outdoor_temps (List.replicate 24 true)
    inp.solar_radiation (le_of_eq h1.symm) (by simp) (le_of_eq h3.symm)
  obtain ⟨c2, hc2⟩ := calculate_cost_some inp.heat_pump
    (List.replicate inp.outdoor_temps.length HeatPumpMode.NORMAL)
    inp.electricity_prices inp.outdoor_temps bl
    (by simp [h1, h2]) (by simp) (by simp [h1, hbllen])
  have hopt : optimize inp = some
      (OptimizationResult.mk
        (createDetailedGo 0 sched (inp.current_indoor_temp :: ptemps)
          inp.outdoor_temps inp.electricity_prices)
        c1 c2 (c2 - c1) (inp.current_indoor_temp :: ptemps).dropLast) := by
    unfold optimize
    simp only [Option.pure_def, Option.bind_eq_bind]
    rw [hg]
    simp only [Option.some_bind]
    rw [hc1]
    simp only [Option.some_bind]
    unfold simulate_day
    rw [hbl]
    simp only [Option.some_bind]
    rw [hc2]
    simp only [Option.some_bind]
  refine ⟨_, sched, inp.current_indoor_temp :: ptemps, hg, hopt, hschedlen,
    htempslen, rfl, rfl, ?_, hc1⟩
  have hmap := createDetailedGo_map_expected sched
    (inp.current_indoor_temp :: ptemps) inp.outdoor_temps
    inp.electricity_prices 0
    (by simp [hschedlen, hptempslen]) (by rw [hschedlen, h1])
    (by rw [hschedlen, h2])
  show (createDetailedGo 0 sched (inp.current_indoor_temp :: ptemps)
      inp.outdoor_temps inp.electricity_prices).map
      ScheduleEntry.expected_indoor_temp = _
  rw [hmap, hschedlen, hdrop]

theorem selectMode_ne_off (cmin : ℚ) (c : PriceCategory) (t : ℚ)
    (m : HeatPumpMode) (h : m ≠ HeatPumpMode.OFF) :
    selectMode cmin c t m ≠ HeatPumpMode.OFF := by
  unfold selectMode
  split_ifs <;> first | decide | exact h

theorem greedyHourStep_ne_off (b : BuildingParameters) (hp : HeatPumpParameters)
    (cmin : ℚ) (c : PriceCategory) (m : HeatPumpMode) (t o r : ℚ)
    (h : m ≠ HeatPumpMode.OFF) :
    (greedyHourStep b hp cmin c m t o r).1 ≠ HeatPumpMode.OFF := by
  unfold greedyHourStep
  dsimp only
  split <;> split <;> first | exact selectMode_ne_off cmin c t m h | simp

theorem greedyPhase2_ne_off (b : BuildingParameters) (hp : HeatPumpParameters)
    (cmin : ℚ) :
    ∀ (ms : List HeatPumpMode) (cs : List PriceCategory) (os rs : List ℚ) (t : ℚ),
      (∀ m ∈ ms, m ≠ HeatPumpMode.OFF) →
      ∀ m ∈ (greedyPhase2 b hp cmin ms cs os rs t).1, m ≠ HeatPumpMode.OFF
  | [], cs, os, rs, t, hms => by
      rw [greedyPhase2_nil]
      simp
  | m :: ms, [], os, rs, t, hms => by
      rw [show greedyPhase2 b hp cmin (m :: ms) [] os rs t = ([], []) from by
        cases os <;> cases rs <;> rfl]
      simp
  | m :: ms, c :: cs, [], rs, t, hms => by
      rw [show greedyPhase2 b hp cmin (m :: ms) (c :: cs) [] rs t = ([], []) from by
        cases rs <;> rfl]
      simp
  | m :: ms, c :: cs, o :: os, [], t, hms => by
      rw [show greedyPhase2 b hp cmin (m :: ms) (c :: cs) (o :: os) [] t = ([], [])
        from rfl]
      simp
  | m :: ms, c :: cs, o :: os, r :: rs, t, hms => by
      rw [greedyPhase2_cons]
      intro x hx
      rcases List.mem_cons.mp hx with hx | hx
      · subst hx
        exact greedyHourStep_ne_off b hp cmin c m t o r
          (hms m (List.mem_cons_self m ms))
      · exact greedyPhase2_ne_off b hp cmin ms cs os rs
          (greedyHourStep b hp cmin c m t o r).2
          (fun y hy => hms y (List.mem_cons_of_mem m hy)) x hx

theorem simDayChain_cons (b : BuildingParameters) (hp : HeatPumpParameters)
    (t o : ℚ) (os : List ℚ) (s : Bool) (ss : List Bool) (r : ℚ) (rs : List ℚ) :
    simDayChain b hp t (o :: os) (s :: ss) (r :: rs) =
      simulate_hour b hp t o s 0.7 r 3600.0
        :: simDayChain b hp (simulate_hour b hp t o s 0.7 r 3600.0) os ss rs := rfl

theorem simDayGo_eq_chain (b : BuildingParameters) (hp : HeatPumpParameters) :
    ∀ (n : ℕ) (t : ℚ) (os : List ℚ) (ss : List Bool) (rs : List ℚ),
      os.length = n → ss.length = n → rs.length = n →
      simDayGo b hp n t os ss rs = some (simDayChain b hp t os ss rs) ∧
        (simDayChain b hp t os ss rs).length = n
  | 0, t, os, ss, rs, h1, h2, h3 => by
      match os, ss, rs, h1, h2, h3 with
      | [], [], [], _, _, _ => exact ⟨rfl, rfl⟩
  | n + 1, t, os, ss, rs, h1, h2, h3 => by
      match os, ss, rs, h1, h2, h3 with
      | o :: os, s :: ss, r :: rs, h1, h2, h3 =>
        obtain ⟨ih1, ih2⟩ := simDayGo_eq_chain b hp n
          (simulate_hour b hp t o s 0.7 r 3600.0) os ss rs
          (by simpa using h1) (by simpa using h2) (by simpa using h3)
        refine ⟨?_, ?_⟩
        · rw [simDayGo_succ_cons, ih1, simDayChain_cons]
          rfl
        · rw [simDayChain_cons]
          simp [ih2]

theorem get_u_value_pos (b : BuildingParameters) : 0 < b.get_u_value := by
  unfold BuildingParameters.get_u_value
  split_ifs <;> norm_num

/-! ### Concrete evaluation lemmas -/

theorem cat_expensive_ne_cheap :
    (PriceCategory.expensive = PriceCategory.cheap) = False := eq_false (by decide)

theorem cat_moderate_ne_cheap :
    (PriceCategory.moderate = PriceCategory.cheap) = False := eq_false (by decide)

theorem hpC8_cop_eq (o t : ℚ) : hpC8.get_cop o t =
    npClip ((t + 273.15) / ((t + 273.15) - (5.0 + 273.15)) * 0.45) 2.0 5.0 := by
  unfold HeatPumpParameters.get_cop hpC8
  rw [if_neg (by decide)]

theorem hpC8_cop_at_21 : hpC8.get_cop (788/63) 21 = 5 := by
  rw [hpC8_cop_eq]
  norm_num [npClip, min_def, max_def]

theorem hpC8_rated : hpC8.rated_power = 1196/1575 := rfl

theorem hpC10_cop_eq (o t : ℚ) : hpC10.get_cop o t =
    npClip ((t + 273.15) / ((t + 273.15) - (5.0 + 273.15)) * 0.45) 2.0 5.0 := by
  unfold HeatPumpParameters.get_cop hpC10
  rw [if_neg (by decide)]

theorem hpC10_cop_at_21 : hpC10.get_cop 0 21 = 5 := by
  rw [hpC10_cop_eq]
  norm_num [npClip, min_def, max_def]

theorem hpC10_rated : hpC10.rated_power = 18/25 := rfl

theorem hpZeroA_cop_eq (o t : ℚ) : hpZeroA.get_cop o t =
    npClip ((t + 273.15) / ((t + 273.15) - (o + 273.15)) * 0.45) 2.0 5.0 := by
  unfold HeatPumpParameters.get_cop hpZeroA
  rw [if_pos rfl]

theorem hpZeroA_rated : hpZeroA.rated_power = 0 := rfl

theorem c8_step0 :
    greedyHourStep bEx hpC8 15 PriceCategory.cheap HeatPumpMode.BOOST 21 (788/63) 0 =
      (HeatPumpMode.BOOST, 22) := by
  norm_num [greedyHourStep, selectMode, simulate_hour, simUA_bEx, windowArea_bEx,
    solarGainFactor, bEx_thermal_mass, hpC8_cop_at_21, hpC8_rated, powerFraction,
    mode_boost_ne_off, cat_cheap_ne_expensive]

theorem c8_normalized :
    normalizePrices ((20:ℚ) :: List.replicate 23 100) 24 =
      some ((0:ℚ) :: List.replicate 23 100) := by
  unfold normalizePrices
  rw [pyMin_cons, pyMax_cons, foldl_min_replicate, foldl_max_replicate]
  simp only [Option.pure_def, Option.bind_eq_bind, Option.some_bind]
  norm_num [min_def, max_def, List.map_replicate]

theorem c8_cats :
    ((0:ℚ) :: List.replicate 23 100).map classifyPrice =
      PriceCategory.cheap :: List.replicate 23 PriceCategory.expensive := by
  norm_num [classifyPrice, List.map_replicate]

theorem c8_sched0 :
    applyBoostCheap (List.replicate 24 HeatPumpMode.NORMAL)
      (PriceCategory.cheap :: List.replicate 23 PriceCategory.expensive) =
      HeatPumpMode.BOOST :: List.replicate 23 HeatPumpMode.NORMAL := by
  rw [applyBoostCheap_eq_map _ 24 _ (by simp)]
  norm_num [List.map_replicate, cat_expensive_ne_cheap]

theorem c8_phase2_get0 :
    (greedyPhase2 bEx hpC8 15
      (HeatPumpMode.BOOST :: List.replicate 23 HeatPumpMode.NORMAL)
      (PriceCategory.cheap :: List.replicate 23 PriceCategory.expensive)
      (List.replicate 24 (788/63)) (List.replicate 24 0) 21).2.get? 0 = some 22 := by
  rw [show (List.replicate 24 ((788:ℚ)/63)) = (788/63 : ℚ) :: List.replicate 23 (788/63) from rfl,
    show (List.replicate 24 (0:ℚ)) = (0:ℚ) :: List.replicate 23 0 from rfl,
    greedyPhase2_cons, c8_step0]
  rfl

theorem c10_step :
    greedyHourStep bEx hpC10 18 PriceCategory.moderate HeatPumpMode.NORMAL 21 0 0 =
      (HeatPumpMode.NORMAL, 21) := by
  norm_num [greedyHourStep, selectMode, simulate_hour, simUA_bEx, windowArea_bEx,
    solarGainFactor, bEx_thermal_mass, hpC10_cop_at_21, hpC10_rated, powerFraction,
    mode_normal_ne_off, cat_moderate_ne_expensive]

theorem c10_greedy_eval :
    greedy_optimize c10WitInp = some ([HeatPumpMode.NORMAL], [(21:ℚ), 21]) := by
  have hnorm : normalizePrices c10WitInp.electricity_prices
      c10WitInp.outdoor_temps.length = some [(50:ℚ)] := by
    show normalizePrices [(10:ℚ)] 1 = _
    unfold normalizePrices
    rw [pyMin_cons, pyMax_cons]
    simp only [Option.pure_def, Option.bind_eq_bind, Option.some_bind, List.foldl_nil]
    norm_num
  rw [greedy_optimize_eq c10WitInp _ hnorm]
  rw [show ([(50:ℚ)]).map classifyPrice = [PriceCategory.moderate] from by
    norm_num [classifyPrice]]
  rw [show c10WitInp.outdoor_temps.length = 1 from rfl]
  rw [show applyBoostCheap (List.replicate 1 HeatPumpMode.NORMAL)
      [PriceCategory.moderate] = [HeatPumpMode.NORMAL] from by
    rw [applyBoostCheap_eq_map _ 1 _ (by simp)]
    norm_num [cat_moderate_ne_cheap]]
  rw [show c10WitInp.outdoor_temps = [(0:ℚ)] from rfl,
    show c10WitInp.solar_radiation = [(0:ℚ)] from rfl,
    show c10WitInp.building = bEx from rfl,
    show c10WitInp.heat_pump = hpC10 from rfl,
    show c10WitInp.comfort_min_temp = 18 from rfl,
    show c10WitInp.current_indoor_temp = 21 from rfl,
    greedyPhase2_cons, c10_step]
  rw [greedyPhase2_nil]

/-! ### Claim theorems -/

/-- Claim C1: the claim asserts `get_cop` returns a clamped value in
[2.0, 5.0] with no arithmetic fault even when `t_indoor` equals the cold-side
reference.  In the source, the Carnot ratio is divided *before* the clamp, so
at `t_indoor = 5` (GSHP) or `t_indoor = t_outdoor` (ASHP) the denominator is
exactly zero and Python raises `ZeroDivisionError`: the faithful `get_cop?`
yields `none` there.  This refutes the no-fault part of the claim (code bug:
the clamp cannot prevent a divide-by-zero that happens before it). -/
theorem c1_cop_zero_denominator :
    copCarnotDenominator hpGSHPEx 0 5 = 0 ∧
    get_cop? hpGSHPEx 0 5 = none ∧
    get_cop? hpASHPEx 12 12 = none := by
  have h1 : copCarnotDenominator hpGSHPEx 0 5 = 0 := by
    unfold copCarnotDenominator hpGSHPEx
    rw [if_neg (by decide)]
    norm_num
  have h2 : copCarnotDenominator hpASHPEx 12 12 = 0 := by
    unfold copCarnotDenominator hpASHPEx
    rw [if_pos rfl]
    norm_num
  exact ⟨h1, by unfold get_cop?; rw [if_pos h1], by unfold get_cop?; rw [if_pos h2]⟩

/-- Claim C4: `simulate_hour` returns exactly
`t + ((q_hp + q_solar - q_loss) * dt) / C` with
`q_loss = UA*(t - t_out)`, `q_solar = solar * (0.15*floor_area) * 0.7`, and
`q_hp = COP * rated_power * fraction * 1000` when on, else 0; and on the
worked example (100 m² medium building, outdoor −5 °C, indoor 21 °C, no solar,
pump off, dt = 3600 s) the result 19.8768 °C is within 0.01 of 19.88 °C. -/
theorem c4_simulate_hour_formula :
    (∀ (b : BuildingParameters) (hp : HeatPumpParameters) (t o : ℚ) (hon : Bool)
      (frac r dtv : ℚ),
      simulate_hour b hp t o hon frac r dtv =
        t + (((if hon then hp.get_cop o t * (hp.rated_power * frac * 1000) else 0.0)
          + r * (0.15 * b.floor_area) * 0.7
          - (b.get_u_value * (4.0 * b.floor_area)) * (t - o)) * dtv)
          / (100000 * b.floor_area)) ∧
    |simulate_hour bEx hpASHPEx 21 (-5) false 0.7 0 3600.0 - 19.88| ≤ 0.01 := by
  constructor
  · intro b hp t o hon frac r dtv
    rfl
  · have hval : simulate_hour bEx hpASHPEx 21 (-5) false 0.7 0 3600.0 = 12423/625 := by
      norm_num [simulate_hour, simUA_bEx, windowArea_bEx, solarGainFactor,
        bEx_thermal_mass]
    rw [hval, abs_le]
    constructor <;> norm_num

/-- Claim C2: the claim requires `optimize` to fail with an input-validation
error on non-positive physical parameters (and on length mismatches) before
any simulation runs.  The source performs no validation at all: on an input
whose heat pump has rated power 0 (non-positive) and 24-hour forecasts,
`optimize` runs the full greedy simulation and returns an ordinary result
(24 trajectory entries, total cost 0) instead of failing (code bug). -/
theorem c2_no_input_validation :
    c2Inp.heat_pump.rated_power = 0 ∧
    Option.map (fun r => (r.indoor_temps.length, r.total_cost)) (optimize c2Inp) =
      some (24, 0) := by
  refine ⟨rfl, ?_⟩
  obtain ⟨r, sched, temps, hg, hopt, hsl, htl, hh, hind, hmap, hc⟩ :=
    optimize_structure c2Inp (by simp [c2Inp]) (by simp [c2Inp]) (by simp [c2Inp])
  have hdl : temps.dropLast.length = 24 := by
    rw [dropLast_eq_take_of_length temps 24 htl]
    simp [htl]
  have hz : calculate_cost c2Inp.heat_pump sched c2Inp.electricity_prices
      c2Inp.outdoor_temps temps.dropLast = some 0 :=
    calculate_cost_zero c2Inp.heat_pump rfl sched _ _ _
      (le_of_eq (hsl.trans (by simp [c2Inp])))
      (le_of_eq (hsl.trans (by simp [c2Inp])))
      (le_of_eq (hsl.trans hdl.symm))
  have hcost : r.total_cost = 0 := (Option.some.inj (hz.symm.trans hc)).symm
  rw [hopt]
  simp only [Option.map_some']
  rw [hind, hdl, hcost]

/-- Claim C6 counterexample: the claim says `simulate_day` returns a
trajectory of exactly H temperatures for every horizon H ≥ 1.  With H = 25
(arrays of length 25) the source's hard-coded `range(24)` loop returns only
24 temperatures. -/
theorem c6_counterexample :
    Option.map List.length
      (simulate_day bEx hpGSHPEx 21 (List.replicate 25 21)
        (List.replicate 25 false) (List.replicate 25 0)) = some 24 ∧
    (List.replicate 25 (21:ℚ)).length = 25 := by
  constructor
  · obtain ⟨l, hl, hlen⟩ := simDayGo_some bEx hpGSHPEx 24 21
      (List.replicate 25 21) (List.replicate 25 false) (List.replicate 25 0)
      (by simp) (by simp) (by simp)
    unfold simulate_day
    rw [hl]
    simp [hlen]
  · simp

/-- Claim C6 (amended): `simulate_day` always iterates exactly 24 hours.  For
input arrays of length 24 it returns the 24-entry trajectory obtained by
iterating `simulate_hour` sequentially from the initial temperature, always
with power fraction 0.7 while the schedule marks the pump on (`simDayChain`);
for H < 24 it fails with an index error and for H > 24 it truncates to 24
(see the counterexample). -/
theorem c6_simulate_day_chain (b : BuildingParameters) (hp : HeatPumpParameters)
    (t0 : ℚ) (outs : List ℚ) (sch : List Bool) (sols : List ℚ)
    (h1 : outs.length = 24) (h2 : sch.length = 24) (h3 : sols.length = 24) :
    simulate_day b hp t0 outs sch sols =
      some (simDayChain b hp t0 outs sch sols) ∧
    (simDayChain b hp t0 outs sch sols).length = 24 :=
  simDayGo_eq_chain b hp 24 t0 outs sch sols h1 h2 h3

/-- Witness for C6: the amended theorem applied at a concrete 24-hour input. -/
theorem c6_witness :
    simulate_day bEx hpGSHPEx 21 (List.replicate 24 0) (List.replicate 24 false)
      (List.replicate 24 0) =
      some (simDayChain bEx hpGSHPEx 21 (List.replicate 24 0)
        (List.replicate 24 false) (List.replicate 24 0)) :=
  (c6_simulate_day_chain bEx hpGSHPEx 21 _ _ _ (by simp) (by simp) (by simp)).1

/-- Claim C3: in the Phase 2 loop body, whenever the temperature simulated
with the chosen mode's power fraction undershoots `comfort_min_temp`, the hour
is forced to BOOST, the simulated result is discarded, the hour is re-simulated
from the same entering temperature at full power, and the corrected temperature
(equal to the BOOST-only simulation) is carried forward by the recursion; no
condition is checked afterwards, so no error occurs even if the corrected
temperature is still below `comfort_min_temp`. -/
theorem c3_safety_correction (b : BuildingParameters) (hp : HeatPumpParameters)
    (cmin : ℚ) (c : PriceCategory) (m : HeatPumpMode) (t o r : ℚ)
    (h : simulate_hour b hp t o
      (if selectMode cmin c t m = HeatPumpMode.OFF then false else true)
      (powerFraction (selectMode cmin c t m)) r 3600.0 < cmin) :
    greedyHourStep b hp cmin c m t o r =
      (HeatPumpMode.BOOST, simulate_hour b hp t o true 1.0 r 3600.0) ∧
    ∀ (ms : List HeatPumpMode) (cs : List PriceCategory) (os rs : List ℚ),
      greedyPhase2 b hp cmin (m :: ms) (c :: cs) (o :: os) (r :: rs) t =
        (HeatPumpMode.BOOST ::
            (greedyPhase2 b hp cmin ms cs os rs
              (simulate_hour b hp t o true 1.0 r 3600.0)).1,
          simulate_hour b hp t o true 1.0 r 3600.0 ::
            (greedyPhase2 b hp cmin ms cs os rs
              (simulate_hour b hp t o true 1.0 r 3600.0)).2) := by
  have hstep : greedyHourStep b hp cmin c m t o r =
      (HeatPumpMode.BOOST, simulate_hour b hp t o true 1.0 r 3600.0) := by
    unfold greedyHourStep
    dsimp only
    rw [if_pos h]
  refine ⟨hstep, fun ms cs os rs => ?_⟩
  rw [greedyPhase2_cons, hstep]

/-- Witness for C3: a zero-power pump at 10 °C indoors with comfort minimum
20 °C undershoots, the hour is corrected to BOOST with the BOOST-only
temperature, and that corrected temperature (9.568 °C) is still below the
comfort minimum without any error. -/
theorem c3_witness :
    greedyHourStep bEx hpZeroA 20 PriceCategory.moderate HeatPumpMode.NORMAL 10 0 0 =
      (HeatPumpMode.BOOST, simulate_hour bEx hpZeroA 10 0 true 1.0 0 3600.0) ∧
    greedyPhase2 bEx hpZeroA 20 [HeatPumpMode.NORMAL] [PriceCategory.moderate]
      [0] [0] 10 =
      ([HeatPumpMode.BOOST], [simulate_hour bEx hpZeroA 10 0 true 1.0 0 3600.0]) ∧
    simulate_hour bEx hpZeroA 10 0 true 1.0 0 3600.0 < 20 := by
  have hch : selectMode 20 PriceCategory.moderate 10 HeatPumpMode.NORMAL =
      HeatPumpMode.NORMAL := selectMode_not_expensive _ _ _ _ (by decide)
  have hdis : simulate_hour bEx hpZeroA 10 0
      (if selectMode 20 PriceCategory.moderate 10 HeatPumpMode.NORMAL =
        HeatPumpMode.OFF then false else true)
      (powerFraction (selectMode 20 PriceCategory.moderate 10 HeatPumpMode.NORMAL))
      0 3600.0 < 20 := by
    rw [hch]
    norm_num [simulate_hour, simUA_bEx, windowArea_bEx, solarGainFactor,
      bEx_thermal_mass, powerFraction, hpZeroA_rated, mode_normal_ne_off]
  have h := c3_safety_correction bEx hpZeroA 20 PriceCategory.moderate
    HeatPumpMode.NORMAL 10 0 0 hdis
  refine ⟨h.1, ?_, ?_⟩
  · have h2 := h.2 [] [] [] []
    rw [h2, greedyPhase2_nil]
  · norm_num [simulate_hour, simUA_bEx, windowArea_bEx, solarGainFactor,
      bEx_thermal_mass, hpZeroA_rated]

/-- Claim C5: `calculate_comfort_score` returns exactly the clamped penalty
formula together with `hours_outside`; the score is 100 for any trajectory
fully inside the comfort band and always lies in [0, 100]. -/
theorem c5_comfort_score (ts : List ℚ) (cmin cmax : ℚ) :
    calculate_comfort_score ts cmin cmax =
      (comfortScoreSpec ts cmin cmax, hoursOutside cmin cmax ts) ∧
    0 ≤ (calculate_comfort_score ts cmin cmax).1 ∧
    (calculate_comfort_score ts cmin cmax).1 ≤ 100 ∧
    ((∀ t ∈ ts, cmin ≤ t ∧ t ≤ cmax) →
      (calculate_comfort_score ts cmin cmax).1 = 100) := by
  have heq : calculate_comfort_score ts cmin cmax =
      (comfortScoreSpec ts cmin cmax, hoursOutside cmin cmax ts) := by
    cases ts with
    | nil => rfl
    | cons a as =>
        unfold calculate_comfort_score comfortScoreSpec hoursOutside comfortViolation
        dsimp only
        rw [if_neg (by simp : ¬(List.map
            (fun t => if t < cmin then cmin - t
              else if cmax < t then t - cmax else 0.0) (a :: as) = [])),
          if_neg (by simp : ¬((a :: as : List ℚ) = [])),
          List.length_map]
  refine ⟨heq, ?_, ?_, ?_⟩
  · rw [heq]
    exact le_trans (by norm_num) (le_max_left 0.0 _)
  · rw [heq]
    exact max_le (by norm_num) (le_trans (min_le_left 100.0 _) (by norm_num))
  · intro hin
    rw [heq]
    show comfortScoreSpec ts cmin cmax = 100
    unfold comfortScoreSpec hoursOutside
    have hcold : ts.countP (fun t => decide (t < cmin)) = 0 := by
      rw [List.countP_eq_zero]
      intro a ha
      simp only [decide_eq_true_eq, not_lt]
      exact (hin a ha).1
    have hhot : ts.countP (fun t => decide (cmax < t)) = 0 := by
      rw [List.countP_eq_zero]
      intro a ha
      simp only [decide_eq_true_eq, not_lt]
      exact (hin a ha).2
    have hviol : ∀ v ∈ ts.map (comfortViolation cmin cmax), v = 0 := by
      intro v hv
      obtain ⟨t, ht, rfl⟩ := List.mem_map.mp hv
      unfold comfortViolation
      rw [if_neg (not_lt.mpr (hin t ht).1), if_neg (not_lt.mpr (hin t ht).2)]
      norm_num
    have hsev : (ts.map (comfortViolation cmin cmax)).countP
        (fun v => decide (2.0 < v)) = 0 := by
      rw [List.countP_eq_zero]
      intro v hv
      rw [hviol v hv]
      simp only [decide_eq_true_eq, not_lt]
      norm_num
    have hsum : (ts.map (comfortViolation cmin cmax)).sum = 0 :=
      List.sum_eq_zero hviol
    rw [hcold, hhot, hsev]
    have havg : (if ts = [] then (0:ℚ)
        else (ts.map (comfortViolation cmin cmax)).sum / (ts.length : ℚ)) = 0 := by
      split_ifs
      · rfl
      · rw [hsum]
        simp
    rw [havg]
    norm_num

/-- Witness for C5: a trajectory fully inside the band scores exactly 100. -/
theorem c5_witness : (calculate_comfort_score [21, 22] 20 23).1 = 100 :=
  (c5_comfort_score [21, 22] 20 23).2.2.2 (by
    intro t ht
    norm_num [List.mem_cons] at ht
    rcases ht with rfl | rfl <;> norm_num)

/-- Claim C7: with a uniform price vector (max = min), every hour is
normalized to 50 and classified moderate, and Phase 1 leaves the whole
schedule at NORMAL; in general classification is half-open:
`< 30` cheap, `[30, 70)` moderate, `≥ 70` expensive. -/
theorem c7_uniform_prices (prices : List ℚ) (n : ℕ) (M : ℚ)
    (hmin : pyMin prices = some M) (hmax : pyMax prices = some M) :
    normalizePrices prices n = some (List.replicate n 50.0) ∧
    (List.replicate n (50.0:ℚ)).map classifyPrice =
      List.replicate n PriceCategory.moderate ∧
    applyBoostCheap (List.replicate n HeatPumpMode.NORMAL)
      (List.replicate n PriceCategory.moderate) =
      List.replicate n HeatPumpMode.NORMAL ∧
    ∀ q : ℚ, (classifyPrice q = PriceCategory.cheap ↔ q < 30) ∧
      (classifyPrice q = PriceCategory.moderate ↔ 30 ≤ q ∧ q < 70) ∧
      (classifyPrice q = PriceCategory.expensive ↔ 70 ≤ q) := by
  refine ⟨?_, ?_, ?_, ?_⟩
  · unfold normalizePrices
    rw [hmin, hmax]
    simp only [Option.pure_def, Option.bind_eq_bind, Option.some_bind]
    rw [if_neg (by norm_num)]
  · rw [List.map_replicate,
      show classifyPrice 50.0 = PriceCategory.moderate from by
        norm_num [classifyPrice]]
  · rw [applyBoostCheap_eq_map _ n _ (by simp), List.map_replicate,
      show (if PriceCategory.moderate = PriceCategory.cheap then HeatPumpMode.BOOST
        else HeatPumpMode.NORMAL) = HeatPumpMode.NORMAL from by
        rw [if_neg (by decide)]]
  · intro q
    unfold classifyPrice
    split_ifs with h1 h2
    · exact ⟨⟨fun _ => h1, fun _ => rfl⟩,
        ⟨fun hc => absurd hc (by decide), fun hq => absurd h1 (by linarith [hq.1])⟩,
        ⟨fun hc => absurd hc (by decide), fun hq => absurd h1 (by linarith)⟩⟩
    · exact ⟨⟨fun hc => absurd hc (by decide), fun hq => absurd hq h1⟩,
        ⟨fun _ => ⟨not_lt.mp h1, h2⟩, fun _ => rfl⟩,
        ⟨fun hc => absurd hc (by decide), fun hq => absurd h2 (by linarith)⟩⟩
    · exact ⟨⟨fun hc => absurd hc (by decide), fun hq => absurd hq h1⟩,
        ⟨fun hc => absurd hc (by decide), fun hq => absurd hq.2 h2⟩,
        ⟨fun _ => not_lt.mp h2, fun _ => rfl⟩⟩

/-- Witness for C7: the uniform price vector [7, 7, 7]. -/
theorem c7_witness :
    normalizePrices [7, 7, 7] 3 = some (List.replicate 3 (50.0:ℚ)) ∧
    applyBoostCheap (List.replicate 3 HeatPumpMode.NORMAL)
      (List.replicate 3 PriceCategory.moderate) =
      List.replicate 3 HeatPumpMode.NORMAL := by
  have h := c7_uniform_prices [7, 7, 7] 3 7
    (by rw [pyMin_cons]; norm_num [List.foldl, min_self])
    (by rw [pyMax_cons]; norm_num [List.foldl, max_self])
  exact ⟨h.1, h.2.2.1⟩

/-- Claim C9: with the heat pump off and a positive floor area, the new indoor
temperature computed by `simulate_hour` is non-decreasing in the outdoor
temperature (for any fixed indoor temperature, solar radiation and
non-negative time step). -/
theorem c9_outdoor_monotone (b : BuildingParameters) (hp : HeatPumpParameters)
    (t frac r dtv o1 o2 : ℚ) (hfa : 0 < b.floor_area) (hdt : 0 ≤ dtv)
    (h12 : o1 ≤ o2) :
    simulate_hour b hp t o1 false frac r dtv ≤
      simulate_hour b hp t o2 false frac r dtv := by
  unfold simulate_hour
  dsimp only
  have hC : 0 < b.get_thermal_mass := by
    unfold BuildingParameters.get_thermal_mass
    exact mul_pos (by norm_num) hfa
  have hUA : 0 ≤ simUA b := by
    unfold simUA BuildingParameters.get_envelope_area
    have hu := get_u_value_pos b
    nlinarith
  apply add_le_add_left
  rw [div_le_div_iff₀ hC hC]
  apply mul_le_mul_of_nonneg_right _ hC.le
  apply mul_le_mul_of_nonneg_right _ hdt
  have h2 := mul_le_mul_of_nonneg_left (sub_le_sub_left h12 t) hUA
  simp only [Bool.false_eq_true, if_false]
  linarith

/-- Witness for C9: moving the outdoor temperature from −5 °C to 0 °C with the
pump off does not lower the resulting indoor temperature. -/
theorem c9_witness :
    simulate_hour bEx hpASHPEx 21 (-5) false 0.7 0 3600.0 ≤
      simulate_hour bEx hpASHPEx 21 0 false 0.7 0 3600.0 :=
  c9_outdoor_monotone bEx hpASHPEx 21 0.7 0 3600.0 (-5) 0
    (by norm_num [bEx]) (by norm_num) (by norm_num)

theorem applyBoostCheap_ne_off :
    ∀ (s : List HeatPumpMode) (c : List PriceCategory),
      (∀ m ∈ s, m ≠ HeatPumpMode.OFF) →
      ∀ m ∈ applyBoostCheap s c, m ≠ HeatPumpMode.OFF
  | s, [], h => by
      rw [show applyBoostCheap s [] = s from by cases s <;> rfl]
      exact h
  | [], c :: cs, h => by
      rw [show applyBoostCheap [] (c :: cs) = [] from rfl]
      simp
  | s :: ss, c :: cs, h => by
      show ∀ m ∈ (if c = PriceCategory.cheap then HeatPumpMode.BOOST else s)
          :: applyBoostCheap ss cs, m ≠ HeatPumpMode.OFF
      intro m hm
      rcases List.mem_cons.mp hm with rfl | hm
      · split_ifs
        · decide
        · exact h s (List.mem_cons_self s ss)
      · exact applyBoostCheap_ne_off ss cs
          (fun y hy => h y (List.mem_cons_of_mem s hy)) m hm

/-- Claim C10: every mode in the schedule returned by the greedy pass is
BOOST, NORMAL or ECO — the OFF mode (power fraction 0.0) is never assigned by
the initialization, Phase 1, Phase 2, or the safety correction. -/
theorem c10_no_off_mode (inp : OptimizationInput)
    (pr : List HeatPumpMode × List ℚ) (hg : greedy_optimize inp = some pr) :
    ∀ m ∈ pr.1, m ≠ HeatPumpMode.OFF := by
  rcases hpn : normalizePrices inp.electricity_prices inp.outdoor_temps.length
    with _ | l
  · unfold greedy_optimize at hg
    simp only [Option.pure_def, Option.bind_eq_bind] at hg
    rw [hpn] at hg
    simp at hg
  · rw [greedy_optimize_eq inp l hpn] at hg
    obtain rfl := Option.some.inj hg
    apply greedyPhase2_ne_off
    apply applyBoostCheap_ne_off
    intro m hm
    rw [List.eq_of_mem_replicate hm]
    decide

/-- Witness for C10: on a concrete one-hour input the greedy schedule is
[NORMAL], whose only element is not OFF. -/
theorem c10_witness : HeatPumpMode.NORMAL ≠ HeatPumpMode.OFF :=
  c10_no_off_mode c10WitInp ([HeatPumpMode.NORMAL], [21, 21]) c10_greedy_eval
    HeatPumpMode.NORMAL (by simp)

/-- Claim C8 (amended): for every well-formed 24-hour input, `optimize`
succeeds and its returned trajectory is `indoor_temps[:-1]` of the greedy
temperature list — that is, the *entering* temperature of each hour (the
initial temperature followed by the first 23 appended post-hour temperatures);
the final hour's appended temperature is dropped.  Each ScheduleEntry's
expected indoor temperature is likewise the entering temperature of its hour,
rounded to one decimal. -/
theorem c8_trajectory_is_entering_temps (inp : OptimizationInput)
    (h1 : inp.outdoor_temps.length = 24)
    (h2 : inp.electricity_prices.length = 24)
    (h3 : inp.solar_radiation.length = 24) :
    ∃ (r : OptimizationResult) (sched : List HeatPumpMode) (temps : List ℚ),
      greedy_optimize inp = some (sched, temps) ∧ optimize inp = some r ∧
      temps.length = 25 ∧ temps.head? = some inp.current_indoor_temp ∧
      r.indoor_temps = temps.dropLast ∧
      r.schedule.map ScheduleEntry.expected_indoor_temp =
        temps.dropLast.map (fun t => pyRound t 1) := by
  obtain ⟨r, sched, temps, hg, hopt, hsl, htl, hh, hind, hmap, hc⟩ :=
    optimize_structure inp h1 h2 h3
  exact ⟨r, sched, temps, hg, hopt, htl, hh, hind, hmap⟩

/-- Witness for C8: the amended theorem applied at a concrete 24-hour input;
the returned trajectory has 24 entries. -/
theorem c8_witness :
    Option.map (fun r => r.indoor_temps.length) (optimize c8WitInp) =
      some 24 := by
  obtain ⟨r, sched, temps, hg, hopt, htl, hh, hind, hmap⟩ :=
    c8_trajectory_is_entering_temps c8WitInp (by simp [c8WitInp])
      (by simp [c8WitInp]) (by simp [c8WitInp])
  rw [hopt]
  simp only [Option.map_some']
  rw [hind, dropLast_eq_take_of_length temps 24 htl]
  simp [htl]

/-- Claim C8 counterexample: the claim as stated says the h-th trajectory
entry is the post-hour temperature that Phase 2 appended for hour h.  On
`c8CexInp`, hour 0 heats 21 °C to 22 °C: the appended post-hour temperature of
hour 0 is 22, yet the trajectory entry 0 of the returned result is the
*initial* temperature 21 — the trajectory is shifted by one hour (it lists
entering temperatures, and the final appended temperature is dropped). -/
theorem c8_counterexample :
    Option.bind (optimize c8CexInp) (fun r => r.indoor_temps.get? 0) = some 21 ∧
    Option.bind (greedy_optimize c8CexInp) (fun pr => pr.2.get? 1) = some 22 ∧
    (21 : ℚ) ≠ 22 := by
  have hnorm : normalizePrices c8CexInp.electricity_prices
      c8CexInp.outdoor_temps.length = some ((0:ℚ) :: List.replicate 23 100) := by
    rw [show c8CexInp.electricity_prices = (20:ℚ) :: List.replicate 23 100 from rfl,
      show c8CexInp.outdoor_temps.length = 24 from by simp [c8CexInp]]
    exact c8_normalized
  refine ⟨?_, ?_, by norm_num⟩
  · obtain ⟨r, sched, temps, hg, hopt, hsl, htl, hh, hind, hmap, hc⟩ :=
      optimize_structure c8CexInp (by simp [c8CexInp]) (by simp [c8CexInp])
        (by simp [c8CexInp])
    rw [hopt]
    simp only [Option.some_bind]
    rw [hind]
    obtain ⟨t, rest, rfl⟩ : ∃ t rest, temps = t :: rest := by
      cases temps with
      | nil => simp at htl
      | cons t rest => exact ⟨t, rest, rfl⟩
    have ht : t = 21 := by
      have : t = c8CexInp.current_indoor_temp := by simpa using hh
      simpa [c8CexInp] using this
    subst ht
    obtain ⟨y, ys, rfl⟩ : ∃ y ys, rest = y :: ys := by
      cases rest with
      | nil => simp at htl
      | cons y ys => exact ⟨y, ys, rfl⟩
    simp [List.dropLast]
  · rw [greedy_optimize_eq c8CexInp _ hnorm]
    simp only [Option.some_bind]
    simp only [List.get?_cons_succ]
    rw [show c8CexInp.outdoor_temps.length = 24 from by simp [c8CexInp]]
    rw [c8_cats, c8_sched0]
    rw [show c8CexInp.building = bEx from rfl,
      show c8CexInp.heat_pump = hpC8 from rfl,
      show c8CexInp.comfort_min_temp = 15 from rfl,
      show c8CexInp.outdoor_temps = List.replicate 24 ((788:ℚ)/63) from rfl,
      show c8CexInp.solar_radiation = List.replicate 24 (0:ℚ) from rfl]
    exact c8_phase2_get0
